import Mathlib

/-!
Verification of the enrollment timing and retry protocol of an ASVZ lesson
enrollment script (src/main.py).

The script is a sequential program whose effects are HTTP exchanges, sleeps
and console prints.  We embed it shallowly: every HTTP exchange is driven by
a simulated response supplied as input, console prints become a list of
`LogEvent`s, sleeps become `SchedAction.sleep` entries in an action trace,
and wall-clock time in the retry loop advances by the simulated round-trip
duration of each attempt.  Python exceptions are modelled with `Except`:
each try-block becomes a function returning `Except PyExc _`, and each
except-clause a match on the error value, so that the catch/propagate
structure of the source is preserved and provable, not baked in.
-/

set_option autoImplicit false

namespace Asvz

/-- Python exceptions relevant to the script: `response.json()` raises
`ValueError` on unparsable JSON, a missing dictionary key raises `KeyError`,
and anything else (TypeError on a bad shape, transport errors from
`requests.post`, ...) is some other exception carrying a message. -/
inductive PyExc where
  | valueError : PyExc
  | keyError : PyExc
  | otherExc : String → PyExc
deriving DecidableEq, Repr

/-- Shape of an enrollment response body as seen by the error-extraction code
in `enroll_in_lesson` (main.py lines 60-65), which runs
`error_data = response.json()` and then
`error_data["errors"][0]["message"]` guarded by
`if "errors" in error_data and error_data["errors"]`.

* `parseError` — `response.json()` raises `ValueError`;
* `noErrors` — JSON parses but has no `"errors"` key, or the entry is falsy
  (e.g. an empty list): the guard is false and nothing is extracted;
* `withMessage m` — `errors[0]["message"]` evaluates to `m`;
* `missingMessage` — `errors[0]` is a dict without `"message"`: `KeyError`;
* `badShape m` — evaluating `errors[0]["message"]` raises an exception that
  is neither `ValueError` nor `KeyError` (e.g. `TypeError` when `errors` is
  a list of strings), with message `m`. -/
inductive ErrorBody where
  | parseError : ErrorBody
  | noErrors : ErrorBody
  | withMessage : String → ErrorBody
  | missingMessage : ErrorBody
  | badShape : String → ErrorBody
deriving DecidableEq, Repr

/-- A simulated result of `requests.post` on the enrollment endpoint:
either a response with an HTTP status code, a raw body text and an
error-body shape, or an exception raised by the transport layer. -/
inductive HttpResponse where
  | ok : Nat → String → ErrorBody → HttpResponse
  | transportError : String → HttpResponse
deriving DecidableEq, Repr

/-- Console output of the script, abstracted per print statement of
`enroll_in_lesson` and `send_pre_request`. -/
inductive LogEvent where
  | attemptSent : Nat → LogEvent
  | attemptStatus : Nat → Nat → LogEvent
  | successBody : String → LogEvent
  | structuredError : String → LogEvent
  | rawBody : String → LogEvent
  | attemptError : Nat → String → LogEvent
  | preRequestNote : LogEvent
deriving DecidableEq, Repr

/-- Message printed by the outer except-clause for an escaped exception. -/
def PyExc.message : PyExc → String
  | .valueError => "ValueError"
  | .keyError => "KeyError"
  | .otherExc m => m

/-- The body of the inner try of `enroll_in_lesson` (main.py lines 61-63):
parse the JSON body and, when a structured errors list with a message is
present, produce the structured log line.  Returns the exception when the
Python code would raise. -/
def parse_json_errors : ErrorBody → Except PyExc (List LogEvent)
  | .parseError => .error .valueError
  | .noErrors => .ok []
  | .withMessage m => .ok [.structuredError m]
  | .missingMessage => .error .keyError
  | .badShape m => .error (.otherExc m)

/-- The inner try/except of `enroll_in_lesson` (main.py lines 60-65): the
except-clause catches exactly `(ValueError, KeyError)` and falls back to
printing the raw response text; any other exception propagates. -/
def handle_non201 (text : String) (body : ErrorBody) :
    Except PyExc (List LogEvent) :=
  match parse_json_errors body with
  | .ok logs => .ok logs
  | .error .valueError => .ok [.rawBody text]
  | .error .keyError => .ok [.rawBody text]
  | .error e => .error e

/-- The outer try-block of `enroll_in_lesson` (main.py lines 49-66): perform
the POST, print the status line, return `true` on 201 (printing the success
lines), otherwise run the inner error-extraction and return `false`.
The result pairs the log lines emitted inside the block with either the
returned boolean or the exception escaping the block. -/
def enroll_try (resp : HttpResponse) (attempt_num : Nat) :
    List LogEvent × Except PyExc Bool :=
  match resp with
  | .transportError m => ([], .error (.otherExc m))
  | .ok st text body =>
    if st = 201 then
      ([.attemptStatus attempt_num st, .successBody text], .ok true)
    else
      match handle_non201 text body with
      | .ok logs => (.attemptStatus attempt_num st :: logs, .ok false)
      | .error e => ([.attemptStatus attempt_num st], .error e)

/-- Shallow embedding of `enroll_in_lesson` (main.py lines 27-69): the
"Attempt n: Sent" line is printed before the try-block; the outer
except-clause catches every exception, prints the attempt-error line and
returns `false`.  The function returns the boolean outcome together with
all log lines of the attempt. -/
def enroll_in_lesson (resp : HttpResponse) (attempt_num : Nat) :
    Bool × List LogEvent :=
  match enroll_try resp attempt_num with
  | (logs, .ok b) => (b, .attemptSent attempt_num :: logs)
  | (logs, .error e) =>
      (false,
        .attemptSent attempt_num :: logs
          ++ [.attemptError attempt_num e.message])

/-- Success classification of a simulated response: `enroll_in_lesson`
returns `true` exactly on HTTP status 201. -/
def respSucceeds : HttpResponse → Bool
  | .ok st _ _ => st == 201
  | .transportError _ => false

theorem enroll_fst (resp : HttpResponse) (n : Nat) :
    (enroll_in_lesson resp n).1 = respSucceeds resp := by
  cases resp with
  | transportError m => rfl
  | ok st text body =>
    by_cases h : st = 201
    · subst h; rfl
    · cases body <;>
        simp [enroll_in_lesson, enroll_try, handle_non201, parse_json_errors,
          respSucceeds, h]

/-- A simulated enrollment attempt as consumed by the retry loop: the
response the server would give to the next request, and the wall-clock time
(in discrete time units, e.g. milliseconds) the round trip consumes. -/
structure Attempt where
  resp : HttpResponse
  dur : Nat
deriving DecidableEq, Repr

/-- Loop body of `retry_enrollment` (main.py lines 122-128) over a finite
list of simulated attempts.  `now` is the current clock value, `endTime`
the deadline `start_time + max_duration`, `attempt` the number of attempts
already issued.  Each iteration first checks `time.time() < end_time`
(timeout yields `some (false, attempt)`), then increments the counter and
issues the next request; a `true` return from `enroll_in_lesson` ends the
loop at once.  When the simulated response list runs out while the loop
would still issue requests, the simulation is underdetermined and returns
`none`. -/
def retry_aux : List Attempt → Nat → Nat → Nat → Option (Bool × Nat)
  | attempts, now, endTime, attempt =>
    if now < endTime then
      match attempts with
      | [] => none
      | a :: rest =>
        if (enroll_in_lesson a.resp (attempt + 1)).1 then
          some (true, attempt + 1)
        else
          retry_aux rest (now + a.dur) endTime (attempt + 1)
    else
      some (false, attempt)

/-- Shallow embedding of `retry_enrollment` (main.py lines 115-128): the
loop starts at clock 0 with deadline `max_duration` and attempt counter 0.
Returns the boolean success flag together with the number of attempts
issued. -/
def retry_enrollment (attempts : List Attempt) (max_duration : Nat) :
    Option (Bool × Nat) :=
  retry_aux attempts 0 max_duration 0

/-- Module-level constant `MAX_RETRY_DURATION` (main.py line 11), in the
discrete time units of the simulation. -/
def MAX_RETRY_DURATION : Nat := 5

/-- Module-level constant `PRE_REQUEST_OFFSET_MS` (main.py line 12). -/
def PRE_REQUEST_OFFSET_MS : ℚ := 250

/-- The `pre_request_offset_seconds` value computed in main.py line 155. -/
def pre_request_offset_seconds : ℚ := PRE_REQUEST_OFFSET_MS / 1000

/-- An action of the main path during the waiting phase, in program order:
a `time.sleep` of a given duration in seconds, the start of the detached
pre-request thread, or entry into the retry loop. -/
inductive SchedAction where
  | sleep : ℚ → SchedAction
  | launchPreRequest : SchedAction
  | startRetryLoop : SchedAction
deriving DecidableEq, Repr

/-- Shallow embedding of the waiting phase of `main` (main.py lines
149-184) as the sequence of actions the main path performs, given the
computed `wait_time` and the lead time `L = pre_request_offset_seconds`
(kept as a parameter; the source reads the module constant).  The branch
structure follows the source exactly: `wait_time > 0`, then
`wait_until_pre_request = wait_time - L > 0` decides whether a pre-request
is launched.  The pre-request thread is started and never joined, so the
trace does not depend on its outcome. -/
def wait_scheduler (wait_time L : ℚ) : List SchedAction :=
  if wait_time > 0 then
    if wait_time - L > 0 then
      [.sleep (wait_time - L), .launchPreRequest, .sleep L, .startRetryLoop]
    else
      [.sleep wait_time, .startRetryLoop]
  else
    [.startRetryLoop]

/-- Total duration slept by a trace of scheduler actions. -/
def totalSleep : List SchedAction → ℚ
  | [] => 0
  | .sleep d :: rest => d + totalSleep rest
  | _ :: rest => totalSleep rest

/-- Shallow embedding of `send_pre_request` (main.py lines 105-112): log
the pre-request note, then run one enrollment attempt with attempt
number 0. -/
def send_pre_request (resp : HttpResponse) : Bool × List LogEvent :=
  ((enroll_in_lesson resp 0).1,
    .preRequestNote :: (enroll_in_lesson resp 0).2)

/-- The lesson metadata the script reads from the fetch response's `data`
payload (main.py lines 24, 97-101, 138): the enrollment-open instant is
kept as seconds on the common UTC timeline that main.py lines 139-147
normalise to. -/
structure LessonInfo where
  sportName : String
  title : String
  enrollmentFrom : ℚ
  participantCount : Nat
  participantsMax : Nat
deriving DecidableEq, Repr

/-- A simulated response of the lesson-info GET endpoint: its HTTP status
code and the `data` payload of its JSON body. -/
structure FetchResponse where
  status : Nat
  data : LessonInfo
deriving DecidableEq, Repr

/-- Shallow embedding of `get_lesson_info` (main.py lines 15-24): a single
GET; a non-200 status raises (`raise Exception(f"Failed to fetch lesson
info: {status}")` — the error value carries the observed status code);
otherwise the `data` payload is returned. -/
def get_lesson_info (resp : FetchResponse) : Except Nat LessonInfo :=
  if resp.status ≠ 200 then .error resp.status else .ok resp.data

/-- Final console summary of `main` (main.py lines 186-189). -/
inductive Summary where
  | success : Summary
  | failure : Summary
deriving DecidableEq, Repr

/-- What a completed run of `main` did after a successful fetch: the
waiting-phase action trace, the retry loop's result, and the final
summary line.  `retryResult = none` (and then `summary = none`) marks a
simulation that ran out of simulated responses. -/
structure RunOutcome where
  actions : List SchedAction
  retryResult : Option (Bool × Nat)
  summary : Option Summary
deriving DecidableEq, Repr

/-- Shallow embedding of `main` (main.py lines 131-189) over simulated
inputs: the fetch response, the current UTC time `now` (seconds), and the
simulated responses for the retry loop.  A failed fetch raises out of
`main` (`Except.error`, carrying the status); otherwise the wait time is
`enrollmentFrom - now`, the waiting phase runs, then the retry loop, then
the success or failure summary is printed and `main` returns normally. -/
def main (fetch : FetchResponse) (now : ℚ) (attempts : List Attempt)
    (maxDur : Nat) : Except Nat RunOutcome :=
  match get_lesson_info fetch with
  | .error e => .error e
  | .ok info =>
    let wait_time := info.enrollmentFrom - now
    let acts := wait_scheduler wait_time pre_request_offset_seconds
    let r := retry_enrollment attempts maxDur
    .ok ⟨acts, r, r.map (fun p => if p.1 then .success else .failure)⟩

/-- Shallow embedding of the bearer-token resolution in `get_config`
(main.py lines 88-90): `bearer_token = BEARER_TOKEN or
os.environ.get("ASVZ_TOKEN")` followed by
`if bearer_token is None: bearer_token = input(...)`.  Python's `or`
takes the right operand when `BEARER_TOKEN` is `None` or falsy (the empty
string); the prompt is consulted only when the combined value is `None`. -/
def get_config_token (bearerTokenConst envToken : Option String)
    (promptInput : String) : String :=
  let bearer : Option String :=
    match bearerTokenConst with
    | some s => if s = "" then envToken else some s
    | none => envToken
  match bearer with
  | some t => t
  | none => promptInput

/-- Sample lesson metadata used by concrete witnesses. -/
def sampleLessonInfo : LessonInfo :=
  ⟨"Tennis", "Tennis 60 min", 10, 0, 20⟩

/-- Concrete simulated responses used in examples and witnesses. -/
def resp422 : HttpResponse := .ok 422 "too early" .noErrors

/-- Concrete 500 response used in examples and witnesses. -/
def resp500 : HttpResponse := .ok 500 "server error" .noErrors

/-- Concrete 201 response used in examples and witnesses. -/
def resp201 : HttpResponse := .ok 201 "enrolled" .noErrors

theorem retry_aux_timeout_step (attempts : List Attempt)
    (now endTime attempt : Nat) (h : ¬ now < endTime) :
    retry_aux attempts now endTime attempt = some (false, attempt) := by
  rw [retry_aux.eq_def]
  simp [h]

theorem retry_aux_cons (a : Attempt) (rest : List Attempt)
    (now endTime attempt : Nat) (h : now < endTime) :
    retry_aux (a :: rest) now endTime attempt =
      if respSucceeds a.resp then some (true, attempt + 1)
      else retry_aux rest (now + a.dur) endTime (attempt + 1) := by
  rw [retry_aux.eq_def]
  simp [h, enroll_fst]

theorem retry_aux_reach (pre : List Attempt) (a : Attempt)
    (post : List Attempt) (now endTime attempt : Nat)
    (hfail : ∀ b ∈ pre, respSucceeds b.resp = false)
    (hsucc : respSucceeds a.resp = true)
    (htime : now + (pre.map Attempt.dur).sum < endTime) :
    retry_aux (pre ++ a :: post) now endTime attempt =
      some (true, attempt + pre.length + 1) := by
  induction pre generalizing now attempt with
  | nil =>
    have hnow : now < endTime := by simpa using htime
    simp only [List.nil_append, retry_aux_cons a post now endTime attempt hnow,
      hsucc, if_true, List.length_nil, Nat.add_zero]
  | cons b rest ih =>
    have hnow : now < endTime := by
      simp only [List.map_cons, List.sum_cons] at htime
      omega
    have hb : respSucceeds b.resp = false := hfail b (by simp)
    rw [List.cons_append, retry_aux_cons b (rest ++ a :: post) now endTime attempt hnow,
      hb]
    simp only [Bool.false_eq_true, if_false]
    have htime' : now + b.dur + (rest.map Attempt.dur).sum < endTime := by
      simp only [List.map_cons, List.sum_cons] at htime
      omega
    rw [ih (now + b.dur) (attempt + 1)
      (fun x hx => hfail x (List.mem_cons_of_mem b hx)) htime']
    have harith : attempt + 1 + rest.length + 1 =
        attempt + (rest.length + 1) + 1 := by omega
    rw [List.length_cons, harith]

theorem retry_aux_timeout (attempts : List Attempt)
    (now endTime attempt : Nat)
    (hfail : ∀ b ∈ attempts, respSucceeds b.resp = false)
    (hdur : endTime ≤ now + (attempts.map Attempt.dur).sum) :
    ∃ k ≤ attempt + attempts.length,
      retry_aux attempts now endTime attempt = some (false, k) := by
  induction attempts generalizing now attempt with
  | nil =>
    refine ⟨attempt, by simp, ?_⟩
    have h : ¬ now < endTime := by simp at hdur; omega
    exact retry_aux_timeout_step [] now endTime attempt h
  | cons b rest ih =>
    by_cases hnow : now < endTime
    · rw [retry_aux_cons b rest now endTime attempt hnow,
        hfail b (by simp)]
      simp only [Bool.false_eq_true, if_false]
      have hdur' : endTime ≤ now + b.dur + (rest.map Attempt.dur).sum := by
        simp only [List.map_cons, List.sum_cons] at hdur
        omega
      obtain ⟨k, hk, heq⟩ :=
        ih (now + b.dur) (attempt + 1)
          (fun x hx => hfail x (List.mem_cons_of_mem b hx)) hdur'
      exact ⟨k, by simp only [List.length_cons]; omega, heq⟩
    · exact ⟨attempt, by simp,
        retry_aux_timeout_step (b :: rest) now endTime attempt hnow⟩

theorem retry_aux_replicate_422 (n : Nat) :
    ∀ now endTime attempt : Nat, endTime = now + n →
      retry_aux (List.replicate n ⟨resp422, 1⟩) now endTime attempt =
        some (false, attempt + n) := by
  induction n with
  | zero =>
    intro now endTime attempt h
    have hnow : ¬ now < endTime := by omega
    simpa using retry_aux_timeout_step _ now endTime attempt hnow
  | succ m ih =>
    intro now endTime attempt h
    have hnow : now < endTime := by omega
    rw [List.replicate_succ,
      retry_aux_cons ⟨resp422, 1⟩ _ now endTime attempt hnow]
    have : respSucceeds resp422 = false := rfl
    rw [this]
    simp only [Bool.false_eq_true, if_false]
    rw [ih (now + 1) endTime (attempt + 1) (by omega)]
    have harith : attempt + 1 + m = attempt + (m + 1) := by omega
    rw [harith]

/-- C1: for every sequence of simulated enrollment responses fed to the
retry loop, the first response with HTTP status 201 immediately terminates
the loop with success, and no further attempt is issued afterwards (the
result does not depend on the responses after the first 201); in
particular, for the response sequence [422, 422, 500, 201] the loop
reports success after exactly 4 attempts. -/
theorem first_201_terminates_loop :
    (∀ (pre : List Attempt) (a : Attempt) (post : List Attempt)
        (maxDur : Nat),
        (∀ b ∈ pre, respSucceeds b.resp = false) →
        respSucceeds a.resp = true →
        (pre.map Attempt.dur).sum < maxDur →
        retry_enrollment (pre ++ a :: post) maxDur =
          some (true, pre.length + 1))
    ∧ ∀ post : List Attempt,
        retry_enrollment
          ([⟨resp422, 1⟩, ⟨resp422, 1⟩, ⟨resp500, 1⟩] ++ ⟨resp201, 1⟩ :: post)
          MAX_RETRY_DURATION = some (true, 4) := by
  have hgen : ∀ (pre : List Attempt) (a : Attempt) (post : List Attempt)
      (maxDur : Nat),
      (∀ b ∈ pre, respSucceeds b.resp = false) →
      respSucceeds a.resp = true →
      (pre.map Attempt.dur).sum < maxDur →
      retry_enrollment (pre ++ a :: post) maxDur =
        some (true, pre.length + 1) := by
    intro pre a post maxDur hfail hsucc htime
    unfold retry_enrollment
    rw [retry_aux_reach pre a post 0 maxDur 0 hfail hsucc (by simpa using htime)]
    rw [Nat.zero_add]
  refine ⟨hgen, fun post => ?_⟩
  exact hgen [⟨resp422, 1⟩, ⟨resp422, 1⟩, ⟨resp500, 1⟩] ⟨resp201, 1⟩ post
    MAX_RETRY_DURATION (by decide) (by decide) (by decide)

/-- Witness for C1 at a concrete input: one failing 422 attempt followed by
a 201 succeeds on the second attempt. -/
theorem first_201_terminates_loop_witness :
    retry_enrollment [⟨resp422, 1⟩, ⟨resp201, 1⟩] 5 = some (true, 2) :=
  first_201_terminates_loop.1 [⟨resp422, 1⟩] ⟨resp201, 1⟩ [] 5
    (by decide) (by decide) (by decide)

/-- C2: for every sequence of simulated responses containing no 201 whose
round trips exhaust the configured maximum duration, the retry loop
returns success=false once the deadline is reached; the attempt count is
bounded only by elapsed time (all-422 responses of one time unit for a
budget of B time units give exactly B attempts, for every B — no fixed
attempt-count cap), and the caller then takes the failure-summary branch
and `main` returns normally (`Except.ok`) rather than raising. -/
theorem no_201_within_budget_fails :
    (∀ (attempts : List Attempt) (maxDur : Nat),
        (∀ b ∈ attempts, respSucceeds b.resp = false) →
        maxDur ≤ (attempts.map Attempt.dur).sum →
        ∃ k ≤ attempts.length,
          retry_enrollment attempts maxDur = some (false, k))
    ∧ (∀ B : Nat,
        retry_enrollment (List.replicate B ⟨resp422, 1⟩) B =
          some (false, B))
    ∧ ∀ (fetch : FetchResponse) (now : ℚ) (attempts : List Attempt)
        (maxDur : Nat),
        fetch.status = 200 →
        (∀ b ∈ attempts, respSucceeds b.resp = false) →
        maxDur ≤ (attempts.map Attempt.dur).sum →
        ∃ out : RunOutcome,
          main fetch now attempts maxDur = .ok out
          ∧ out.summary = some Summary.failure := by
  have hgen : ∀ (attempts : List Attempt) (maxDur : Nat),
      (∀ b ∈ attempts, respSucceeds b.resp = false) →
      maxDur ≤ (attempts.map Attempt.dur).sum →
      ∃ k ≤ attempts.length,
        retry_enrollment attempts maxDur = some (false, k) := by
    intro attempts maxDur hfail hdur
    obtain ⟨k, hk, heq⟩ :=
      retry_aux_timeout attempts 0 maxDur 0 hfail (by simpa using hdur)
    exact ⟨k, by simpa using hk, heq⟩
  refine ⟨hgen, fun B => ?_, ?_⟩
  · unfold retry_enrollment
    rw [retry_aux_replicate_422 B 0 B 0 (by omega)]
    rw [Nat.zero_add]
  · intro fetch now attempts maxDur h200 hfail hdur
    obtain ⟨k, _, heq⟩ := hgen attempts maxDur hfail hdur
    refine ⟨⟨wait_scheduler (fetch.data.enrollmentFrom - now)
        pre_request_offset_seconds, some (false, k), some .failure⟩, ?_, rfl⟩
    unfold main get_lesson_info
    rw [if_neg (by simp [h200])]
    simp [heq]

/-- Witness for C2 at a concrete input: five 422 responses of one time
unit each against the default 5-unit budget give failure after exactly 5
attempts, and the full run returns normally with a failure summary. -/
theorem no_201_within_budget_fails_witness :
    (∃ k ≤ ([⟨resp422, 1⟩, ⟨resp422, 1⟩] : List Attempt).length,
        retry_enrollment [⟨resp422, 1⟩, ⟨resp422, 1⟩] 2 = some (false, k))
    ∧ retry_enrollment (List.replicate 5 ⟨resp422, 1⟩) 5 = some (false, 5)
    ∧ ∃ out : RunOutcome,
        main ⟨200, sampleLessonInfo⟩ 0 [⟨resp422, 1⟩, ⟨resp422, 1⟩] 2 = .ok out
        ∧ out.summary = some Summary.failure :=
  ⟨no_201_within_budget_fails.1 [⟨resp422, 1⟩, ⟨resp422, 1⟩] 2
      (by decide) (by decide),
   no_201_within_budget_fails.2.1 5,
   no_201_within_budget_fails.2.2 ⟨200, sampleLessonInfo⟩ 0
      [⟨resp422, 1⟩, ⟨resp422, 1⟩] 2 rfl (by decide) (by decide)⟩

/-- C3: for every computed wait duration w > 0 with configured lead time L:
if w > L the scheduler sleeps w - L, then launches exactly one pre-request
as a background action, then sleeps the remaining L before entering the
retry loop; if 0 < w <= L it sleeps the full w and launches no
pre-request. -/
theorem pre_request_scheduling (w L : ℚ) (hw : 0 < w) :
    (L < w →
        wait_scheduler w L =
          [.sleep (w - L), .launchPreRequest, .sleep L, .startRetryLoop])
    ∧ (w ≤ L → wait_scheduler w L = [.sleep w, .startRetryLoop]) := by
  constructor
  · intro h
    have h1 : w - L > 0 := by linarith
    simp [wait_scheduler, hw, h1]
  · intro h
    have h1 : ¬ w - L > 0 := by linarith
    simp [wait_scheduler, hw, h1]

/-- Witness for C3 at concrete inputs: with the default lead time of a
quarter second, a one-second wait schedules the pre-request, while a
tenth-of-a-second wait does not. -/
theorem pre_request_scheduling_witness :
    wait_scheduler 1 pre_request_offset_seconds =
      [.sleep (1 - pre_request_offset_seconds), .launchPreRequest,
        .sleep pre_request_offset_seconds, .startRetryLoop]
    ∧ wait_scheduler (1/10) pre_request_offset_seconds =
      [.sleep (1/10), .startRetryLoop] :=
  ⟨(pre_request_scheduling 1 pre_request_offset_seconds (by norm_num)).1
      (by norm_num [pre_request_offset_seconds, PRE_REQUEST_OFFSET_MS]),
   (pre_request_scheduling (1/10) pre_request_offset_seconds (by norm_num)).2
      (by norm_num [pre_request_offset_seconds, PRE_REQUEST_OFFSET_MS])⟩

/-- C4: for every computed wait duration w <= 0 the scheduler performs no
sleep and launches no pre-request: its action trace is just the entry into
the retry loop. -/
theorem already_open_starts_immediately (w L : ℚ) (hw : w ≤ 0) :
    wait_scheduler w L = [.startRetryLoop] := by
  have h : ¬ w > 0 := by linarith
  simp [wait_scheduler, h]

/-- Witness for C4 at a concrete input: a wait of minus two seconds. -/
theorem already_open_starts_immediately_witness :
    wait_scheduler (-2) pre_request_offset_seconds = [.startRetryLoop] :=
  already_open_starts_immediately (-2) pre_request_offset_seconds (by norm_num)

/-- C5: in every execution the total time slept before the retry loop
starts equals max(w, 0), so the loop never begins before the computed
opening instant and starts exactly at it (sleep-precision jitter is
outside the model); the retry-loop entry is always the last scheduler
action and occurs nowhere earlier, so any pre-request launch strictly
precedes the loop's first attempt; and the pre-request runs its enrollment
attempt with attempt number 0 — its log lines carry attempt number 0 and
no other.  The scheduler trace is a function of w and L alone (it does not
take the pre-request's outcome as an input), reflecting that the main path
never waits on the detached thread. -/
theorem loop_start_timing :
    (∀ w L : ℚ, totalSleep (wait_scheduler w L) = max w 0)
    ∧ (∀ w L : ℚ,
        (wait_scheduler w L).getLast? = some .startRetryLoop
        ∧ SchedAction.startRetryLoop ∉ (wait_scheduler w L).dropLast)
    ∧ ∀ (resp : HttpResponse) (n : Nat),
        LogEvent.attemptSent n ∈ (send_pre_request resp).2 ↔ n = 0 := by
  refine ⟨fun w L => ?_, fun w L => ?_, fun resp n => ?_⟩
  · by_cases h1 : w > 0
    · by_cases h2 : w - L > 0
      · simp only [wait_scheduler, h1, h2, if_true, totalSleep]
        rw [max_eq_left h1.le]
        ring
      · simp only [wait_scheduler, h1, h2, if_true, if_false, totalSleep]
        rw [max_eq_left h1.le]
        ring
    · simp only [wait_scheduler, h1, if_false, totalSleep]
      rw [max_eq_right (by linarith [not_lt.mp h1])]
  · by_cases h1 : w > 0
    · by_cases h2 : w - L > 0
      · simp [wait_scheduler, h1, h2, List.getLast?, List.dropLast]
      · simp [wait_scheduler, h1, h2, List.getLast?, List.dropLast]
    · simp [wait_scheduler, h1, List.getLast?, List.dropLast]
  · cases resp with
    | transportError m =>
      simp [send_pre_request, enroll_in_lesson, enroll_try, eq_comm]
    | ok st text body =>
      by_cases h : st = 201
      · subst h
        simp [send_pre_request, enroll_in_lesson, enroll_try, eq_comm]
      · cases body <;>
          simp [send_pre_request, enroll_in_lesson, enroll_try,
            handle_non201, parse_json_errors, h, eq_comm]

/-- Log lines the non-201 branch of `enroll_in_lesson` produces after the
status line, per body shape: the structured message when present; the
raw-body fallback exactly when JSON parsing raises `ValueError` or the
message lookup raises `KeyError`; nothing when the parsed body has no
error entries; and the outer handler's attempt-error line when extraction
raises an exception the inner except-clause does not anticipate. -/
def errorLogTail (n : Nat) (text : String) : ErrorBody → List LogEvent
  | .parseError => [.rawBody text]
  | .noErrors => []
  | .withMessage m => [.structuredError m]
  | .missingMessage => [.rawBody text]
  | .badShape m => [.attemptError n m]

/-- Counterexample to C6 as stated: on a 422 response whose body parses as
JSON but contains no error entries (the structured form is absent), the
handler does not fall back to logging the raw body text — it logs nothing
beyond the sent and status lines. -/
theorem handler_422_fallback_cex :
    enroll_in_lesson (.ok 422 "raw body" .noErrors) 1 =
      (false, [.attemptSent 1, .attemptStatus 1 422])
    ∧ LogEvent.rawBody "raw body" ∉
        (enroll_in_lesson (.ok 422 "raw body" .noErrors) 1).2 := by
  decide

/-- C6 (amended): for every HTTP 422 response the attempt handler returns
false so the loop continues, and it never crashes — for every body shape
it produces exactly the log lines of `errorLogTail`: the structured
message when one is present, the raw-body fallback exactly when extraction
raises `ValueError` or `KeyError`, nothing when the parsed body has no
error entries, and the outer handler's error line when extraction raises
an exception the inner handler does not anticipate. -/
theorem handler_422_behaviour (text : String) (body : ErrorBody) (n : Nat) :
    enroll_in_lesson (.ok 422 text body) n =
      (false,
        .attemptSent n :: .attemptStatus n 422 :: errorLogTail n text body) := by
  cases body <;> rfl

/-- Counterexample to C7 as stated: on a 500 response (neither 201 nor
422) whose body carries a structured errors list, the handler logs the
structured message, not the raw response body — the structured-error
extraction path does apply to statuses other than 422. -/
theorem handler_other_status_cex :
    (enroll_in_lesson (.ok 500 "raw body" (.withMessage "serverfull")) 1).2 =
      [.attemptSent 1, .attemptStatus 1 500, .structuredError "serverfull"]
    ∧ LogEvent.rawBody "raw body" ∉
        (enroll_in_lesson (.ok 500 "raw body" (.withMessage "serverfull")) 1).2 := by
  decide

/-- C7 (amended): every response whose status is not 201 — including every
status other than 422 — is handled by the same branch as 422: the handler
attempts structured-error extraction with the raw-body fallback
(`errorLogTail`), returns false, and when time remains the loop simply
proceeds to the next attempt, with no fatal threshold other than the
global time budget. -/
theorem handler_other_status_behaviour (st : Nat) (text : String)
    (body : ErrorBody) (n : Nat) (h : st ≠ 201) :
    enroll_in_lesson (.ok st text body) n =
      (false,
        .attemptSent n :: .attemptStatus n st :: errorLogTail n text body)
    ∧ ∀ (d : Nat) (rest : List Attempt) (now endTime attempt : Nat),
        now < endTime →
        retry_aux (⟨.ok st text body, d⟩ :: rest) now endTime attempt =
          retry_aux rest (now + d) endTime (attempt + 1) := by
  constructor
  · cases body <;>
      simp [enroll_in_lesson, enroll_try, handle_non201, parse_json_errors,
        errorLogTail, PyExc.message, h]
  · intro d rest now endTime attempt hnow
    rw [retry_aux_cons ⟨.ok st text body, d⟩ rest now endTime attempt hnow]
    simp [respSucceeds, h]

/-- Witness for C7 (amended) at a concrete input: a 500 response with a
malformed JSON body logs the raw body, returns false, and the loop goes on
to the next attempt. -/
theorem handler_other_status_behaviour_witness :
    enroll_in_lesson (.ok 500 "oops" .parseError) 2 =
      (false,
        [.attemptSent 2, .attemptStatus 2 500, .rawBody "oops"])
    ∧ retry_aux [⟨.ok 500 "oops" .parseError, 1⟩] 0 5 0 =
        retry_aux [] 1 5 1 :=
  ⟨(handler_other_status_behaviour 500 "oops" .parseError 2 (by decide)).1,
   (handler_other_status_behaviour 500 "oops" .parseError 2 (by decide)).2
      1 [] 0 5 0 (by decide)⟩

/-- C8: a lesson-info fetch with a non-200 status fails with an error
carrying the observed status code and `main` propagates it without
reaching the waiting phase or the retry loop (`main` returns
`Except.error`, producing no `RunOutcome`); a 200 response yields the
LessonInfo from the response body's data payload. -/
theorem fetch_error_is_fatal (fetch : FetchResponse) (now : ℚ)
    (attempts : List Attempt) (maxDur : Nat) :
    (fetch.status ≠ 200 →
        get_lesson_info fetch = .error fetch.status
        ∧ main fetch now attempts maxDur = .error fetch.status)
    ∧ (fetch.status = 200 → get_lesson_info fetch = .ok fetch.data) := by
  constructor
  · intro h
    refine ⟨by simp [get_lesson_info, h], ?_⟩
    unfold main
    rw [get_lesson_info, if_pos h]
  · intro h
    simp [get_lesson_info, h]

/-- Witness for C8 at concrete inputs: a 404 fetch aborts the whole run
with error 404; a 200 fetch returns the sample payload. -/
theorem fetch_error_is_fatal_witness :
    main ⟨404, sampleLessonInfo⟩ 0 [] 5 = .error 404
    ∧ get_lesson_info ⟨200, sampleLessonInfo⟩ = .ok sampleLessonInfo :=
  ⟨((fetch_error_is_fatal ⟨404, sampleLessonInfo⟩ 0 [] 5).1 (by decide)).2,
   (fetch_error_is_fatal ⟨200, sampleLessonInfo⟩ 0 [] 5).2 rfl⟩

/-- Counterexample to C9 as stated: when both the hardcoded configuration
value and the environment variable are set, the code selects the
hardcoded value, not the environment variable — the claimed precedence of
the environment variable over the hardcoded value is reversed in the
code (`BEARER_TOKEN or os.environ.get(...)`). -/
theorem token_precedence_cex :
    get_config_token (some "hardcoded-token") (some "env-token") "prompted" =
      "hardcoded-token"
    ∧ "hardcoded-token" ≠ "env-token" := by
  constructor
  · rfl
  · decide

/-- C9 (amended): credential resolution selects the bearer token with this
precedence: the hardcoded configuration value when set and non-empty,
then the environment variable when set, then the interactive prompt —
prompting occurs only when neither the hardcoded value nor the
environment variable supplies a token. -/
theorem token_precedence :
    (∀ (s : String) (env : Option String) (p : String), s ≠ "" →
        get_config_token (some s) env p = s)
    ∧ (∀ e p : String,
        get_config_token none (some e) p = e
        ∧ get_config_token (some "") (some e) p = e)
    ∧ ∀ p : String,
        get_config_token none none p = p
        ∧ get_config_token (some "") none p = p := by
  refine ⟨fun s env p hs => ?_, fun e p => ⟨rfl, rfl⟩, fun p => ⟨rfl, rfl⟩⟩
  simp [get_config_token, hs]

/-- Witness for C9 (amended) at a concrete input: a non-empty hardcoded
token wins over a set environment variable. -/
theorem token_precedence_witness :
    get_config_token (some "tok") (some "env-tok") "prompted" = "tok" :=
  token_precedence.1 "tok" (some "env-tok") "prompted" (by decide)

/-- C10: `enroll_in_lesson` is total over every simulated outcome of an
attempt — any status, any body shape (including ones whose extraction
raises an exception the inner handler does not anticipate) and any
transport-level exception — returning true exactly when the status
is 201; and every exception escaping the try-block is caught by the outer
handler, logged as an attempt-error line, and turned into a false
return, so no exception propagates to the caller. -/
theorem enroll_in_lesson_total :
    (∀ (resp : HttpResponse) (n : Nat),
        (enroll_in_lesson resp n).1 = true ↔
          ∃ text body, resp = .ok 201 text body)
    ∧ ∀ (resp : HttpResponse) (n : Nat) (logs : List LogEvent) (e : PyExc),
        enroll_try resp n = (logs, .error e) →
        enroll_in_lesson resp n =
          (false,
            .attemptSent n :: logs ++ [.attemptError n e.message]) := by
  constructor
  · intro resp n
    rw [enroll_fst]
    cases resp with
    | transportError m => simp [respSucceeds]
    | ok st text body => simp [respSucceeds]
  · intro resp n logs e h
    unfold enroll_in_lesson
    rw [h]

/-- Witness for C10 at a concrete input: a 422 response whose errors entry
has a shape the inner handler does not anticipate is caught by the outer
handler and yields false with the attempt-error log line. -/
theorem enroll_in_lesson_total_witness :
    enroll_in_lesson (.ok 422 "bad" (.badShape "TypeError")) 3 =
      (false,
        .attemptSent 3 :: [.attemptStatus 3 422]
          ++ [.attemptError 3 "TypeError"]) :=
  enroll_in_lesson_total.2 (.ok 422 "bad" (.badShape "TypeError")) 3
    [.attemptStatus 3 422] (.otherExc "TypeError") rfl

end Asvz
